import Mathlib

/-!
Shallow embedding of `streamlit_app.py` (support-tickets demo).

Python strings are modelled as lists of Unicode code points (`Str := List Nat`);
`str` converts a Lean string literal to this representation.  Dicts appearing in
the source (`hit["_source"]`, `hit["highlight"]`, `index_source_fields`) are
modelled as ordered association lists, matching Python's insertion-ordered
dicts.  Fallible code (the `create_openai_prompt` loop, which can raise
`TypeError`/`KeyError`) is modelled with `Except`.
-/

abbrev Str := List Nat

def str (s : String) : Str := s.data.map (fun c => c.toNat)

/-- Decimal digit to its code point (`48 = '0'`). -/
def digitChar (d : Nat) : Nat := 48 + d

/-- Fuel-driven decimal rendering helper (structural so the kernel reduces it). -/
def natDigitsAux : Nat → Nat → Str → Str
  | 0, _, acc => acc
  | fuel + 1, n, acc =>
    if n < 10 then digitChar n :: acc
    else natDigitsAux fuel (n / 10) (digitChar (n % 10) :: acc)

/-- Decimal rendering of a natural number, as Python renders a nonnegative
`int` inside an f-string (most significant digit first). -/
def natDigits (n : Nat) : Str := natDigitsAux (n + 1) n []

/-- Python `int` on a decimal-digit string (total model; the source would raise
`ValueError` on non-digits, but it is only ever applied to digit strings). -/
def digitsToNat (s : Str) : Nat := s.foldl (fun acc c => acc * 10 + (c - 48)) 0

/-- Python `s.split("-")` helper (the separator is the single char `'-'` = 45). -/
def splitDashAux : Str → Str → List Str
  | [], cur => [cur.reverse]
  | c :: rest, cur =>
    if c = 45 then cur.reverse :: splitDashAux rest []
    else splitDashAux rest (c :: cur)

def splitDash (s : Str) : List Str := splitDashAux s []

/-- Python string `<` (lexicographic on code points). -/
def lexLt : Str → Str → Bool
  | [], [] => false
  | [], _ :: _ => true
  | _ :: _, [] => false
  | a :: s, b :: t => if a < b then true else if b < a then false else lexLt s t

/-- Python built-in `max` over an iterable of strings (keeps the earlier element
on ties; `max([])` raises in Python, but every call site guards non-emptiness,
so the `[]` default is unreachable). -/
def pyMax : List Str → Str
  | [] => []
  | x :: xs => xs.foldl (fun acc y => if lexLt acc y then y else acc) x

/-- `f"TICKET-{n}"` -/
def ticketId (n : Nat) : Str := str ("TICKET-") ++ natDigits n

/-- `f"ORDER-{n}"` -/
def orderRefStr (n : Nat) : Str := str ("ORDER-") ++ natDigits n

/-- `int(s.split("-")[1])` -/
def numericSuffix (s : Str) : Nat := digitsToNat ((splitDash s).getD 1 [])

/-- Source line 213:
`recent_ticket_number = int(max(st.session_state.df.ID).split("-")[1]) if len(st.session_state.df) > 0 else 1001`
(the `ID` column of the session dataframe is passed as a list of strings). -/
def recent_ticket_number (ids : List Str) : Nat :=
  if ids.length > 0 then numericSuffix (pyMax ids) else 1001

/-- Source line 214: `next_ticket_number = recent_ticket_number + 1` -/
def next_ticket_number (ids : List Str) : Nat := recent_ticket_number ids + 1

/-- Spec-side definition ("maximum numeric ID suffix among current tickets"):
the numeric maximum of the numeric suffixes, written from the spec's words to
compare against the code's `recent_ticket_number`. -/
def maxSuffix (ids : List Str) : Nat :=
  ids.foldr (fun s m => max (numericSuffix s) m) 0

/-- The ID column consisting of `TICKET-n`, `TICKET-(n-1)`, ..., `TICKET-1001`
(descending).  `descIds 1100` is the seeded ID column
(`[f"TICKET-{i}" for i in range(1100, 1000, -1)]`). -/
def descIds (n : Nat) : List Str :=
  (List.range (n - 1000)).map (fun i => ticketId (n - i))

/-!  ## Search hits and the prompt assembler (lines 55-136)  -/

/-- One Elasticsearch hit: `hit["_index"]`, `hit["_source"]` (field-name to
value dict) and the optional `hit["highlight"]` dict (field-name to list of
fragments). -/
structure SearchHit where
  index : Str
  source : List (Str × Str)
  highlight : Option (List (Str × List Str))
deriving DecidableEq

/-- Python `dict` lookup on an association-list model (`d.get(k)` /
`d[k]`-with-check). -/
def lookupStr {α : Type} (k : Str) : List (Str × α) → Option α
  | [] => none
  | (k2, v) :: rest => if k = k2 then some v else lookupStr k rest

def kbIndexName : Str := str (".kibana-observability-ai-assistant-kb-000001")

def kbSourceFields : List Str :=
  [str ("conversation.title"), str ("doc_id"), str ("semantic_text"),
   str ("text"), str ("title")]

/-- Source lines 55-63: `index_source_fields` dict. -/
def index_source_fields : List (Str × List Str) := [(kbIndexName, kbSourceFields)]

/-- Python `sep.join(parts)`. -/
def strJoin (sep : Str) (parts : List Str) : Str :=
  (List.intersperse sep parts).flatten

/-- The fixed fragment separator `"\n --- \n"` of line 100. -/
def hlSep : Str := str ("\n --- \n")

/-- Errors `create_openai_prompt` can raise: iterating `None` when
`index_source_fields.get(...)` misses (`TypeError`), or `hit["_source"][f]`
on an absent key (`KeyError`). -/
inductive PromptErr where
  | typeErr
  | keyErr (field : Str)
deriving DecidableEq

instance : DecidableEq (Except PromptErr Str) := fun a b =>
  match a, b with
  | Except.error e1, Except.error e2 =>
    if h : e1 = e2 then isTrue (congrArg Except.error h)
    else isFalse (fun hh => h (by cases hh; rfl))
  | Except.ok v1, Except.ok v2 =>
    if h : v1 = v2 then isTrue (congrArg Except.ok h)
    else isFalse (fun hh => h (by cases hh; rfl))
  | Except.error e1, Except.ok v1 => isFalse (fun hh => by cases hh)
  | Except.ok v1, Except.error e1 => isFalse (fun hh => by cases hh)

/-- Source lines 103-106: the inner loop over `context_fields`, accumulating
`f"{source_field}: {hit_context}\n"` for truthy (non-empty) values and raising
`KeyError` on an absent field. -/
def sourceFieldsContext (src : List (Str × Str)) : List Str → Except PromptErr Str
  | [] => Except.ok []
  | f :: rest =>
    match lookupStr f src with
    | none => Except.error (PromptErr.keyErr f)
    | some v =>
      (sourceFieldsContext src rest).map (fun tail =>
        (if v ≠ [] then f ++ str (": ") ++ v ++ str ("\n") else []) ++ tail)

/-- Source lines 96-106: the per-hit contribution to `context`.  A present
`highlight` contributes its fragments (flattened over all fields in dict
order, joined with `hlSep`); otherwise the allow-listed source fields
contribute, with `TypeError` on an unknown index. -/
def hitContext (hit : SearchHit) : Except PromptErr Str :=
  match hit.highlight with
  | some hl => Except.ok (strJoin hlSep (hl.map Prod.snd).flatten)
  | none =>
    match lookupStr hit.index index_source_fields with
    | none => Except.error PromptErr.typeErr
    | some fields => sourceFieldsContext hit.source fields

/-- Source lines 93-106: `context` accumulated over all hits in order. -/
def buildContext : List SearchHit → Except PromptErr Str
  | [] => Except.ok []
  | h :: rest =>
    match hitContext h with
    | Except.error e => Except.error e
    | Except.ok c => (buildContext rest).map (fun t => c ++ t)

/-- The instruction template before `{context}` (lines 107-133, verbatim). -/
def promptPre : Str :=
  str ("\n  Instructions:\n  \n  - You are the UrbanStyle Support Assistant. Your goal is to deliver fast, precise and professional responses to customers using only the information available in your knowledge base. \nAlways follow this exact structure when responding:\n1. Title: A clear, informative headline summarizing the topic  \n2. Summary: One or two concise sentences directly answering the question  \n3. Reference: Direct URL to the relevant article in the knowledge base  \n4. Additional Info: Optional short notes with useful tips or next steps  \n5. Contact Support Note: Only if no relevant information is found or further human action is required  \nGuidelines:\n• Do not sound like a chatbot or engage in any casual conversation.  \n• Never include greetings (\"Hi\", \"Hello\"), sign‑offs or apologies.  \n• Do not use Markdown, asterisks, code blocks or JSON formatting.  \n• Never fabricate information or links. Only return what exists in the knowledge base.  \n• If you cannot find an article matching the request, reply exactly:\nTitle: Information Not Found  \nSummary: We're unable to find information related to your request in the current knowledge base.  \nContact Support Note: Please contact our team directly at support@urbanstyle.com\n  - Answer questions truthfully and factually using only the context presented.\n  - If you don't know the answer, just say that you don't know, don't make up an answer.\n  - You must always cite the document where the answer was extracted using inline academic citation style [], using the position.\n  - Use markdown format for code examples.\n  - You are correct, factual, precise, and reliable.\n  \n  Context:\n  ")

/-- The template after `{context}` (lines 133-135). -/
def promptPost : Str := str ("\n  \n  ")

/-- Source lines 92-136: `create_openai_prompt(results)` (as an `Except`
because the context loop can raise). -/
def create_openai_prompt (results : List SearchHit) : Except PromptErr Str :=
  (buildContext results).map (fun ctx => promptPre ++ ctx ++ promptPost)

/-!  ## The ticket dataframe (lines 148-193, 211-228)  -/

/-- A `Date Submitted` cell: the seed rows hold `datetime.date` values
(modelled by their `toordinal()` number), the fallback row holds a formatted
string. -/
inductive DateCell where
  | date (ordinal : Nat)
  | text (s : Str)
deriving DecidableEq

/-- One row of the ticket dataframe.  The seed rows have no `Order ID` /
`Product` columns (after `pd.concat` those cells are missing values, modelled
as `none`). -/
structure Ticket where
  id : Str
  orderRef : Option Str
  product : Option Str
  issue : Str
  status : Str
  priority : Str
  dateSubmitted : DateCell
deriving DecidableEq

/-- Source lines 155-176: the 20 canned issue descriptions. -/
def issue_descriptions : List Str :=
  [str ("Network connectivity issues in the office"),
   str ("Software application crashing on startup"),
   str ("Printer not responding to print commands"),
   str ("Email server downtime"),
   str ("Data backup failure"),
   str ("Login authentication problems"),
   str ("Website performance degradation"),
   str ("Security vulnerability identified"),
   str ("Hardware malfunction in the server room"),
   str ("Employee unable to access shared files"),
   str ("Database connection failure"),
   str ("Mobile application not syncing data"),
   str ("VoIP phone system issues"),
   str ("VPN connection problems for remote employees"),
   str ("System updates causing compatibility issues"),
   str ("File server running out of storage space"),
   str ("Intrusion detection system alerts"),
   str ("Inventory management system errors"),
   str ("Customer data not loading in CRM"),
   str ("Collaboration tool not sending notifications")]

def statusChoices : List Str := [str ("Open"), str ("In Progress"), str ("Closed")]

def priorityChoices : List Str := [str ("High"), str ("Medium"), str ("Low")]

/-- `datetime.date(2023, 6, 1).toordinal()`. -/
def june1of2023 : Nat := 738672

/-- Source lines 149-193: the 100-row seed dataframe.  `np` is the draw stream
of the NumPy generator right after `np.random.seed(42)` (the three
`np.random.choice` calls consume draws 0-99, 100-199, 200-299); it is the same
in every process because the seed is fixed.  `py` is the draw stream of the
separate, unseeded `random` module (`random.randint(0, 182)` per row), which
differs between processes. -/
def seedTickets (np : Nat → Nat) (py : Nat → Nat) : List Ticket :=
  (List.range 100).map (fun i =>
    { id := ticketId (1100 - i)
      orderRef := none
      product := none
      issue := issue_descriptions.getD (np i % 20) []
      status := statusChoices.getD (np (100 + i) % 3) []
      priority := priorityChoices.getD (np (200 + i) % 3) []
      dateSubmitted := DateCell.date (june1of2023 + py i % 183) })

/-- Source lines 213-225: the fallback-created ticket (`df_auto`'s single row).
`today` is `datetime.datetime.now().strftime("%m-%d-%Y")`, passed in as the
formatted current-date string. -/
def autoTicket (df : List Ticket) (issue today : Str) : Ticket :=
  { id := ticketId (next_ticket_number (df.map Ticket.id))
    orderRef := some (orderRefStr (next_ticket_number (df.map Ticket.id)))
    product := some (str ("Auto-generated"))
    issue := issue
    status := str ("Open")
    priority := str ("Medium")
    dateSubmitted := DateCell.text today }

/-!  ## The retriever request (lines 66-90)  -/

/-- The `es_query` body of lines 67-88: a semantic retriever query against one
field, a highlight configuration (field, `number_of_fragments`, `order`) and a
`size` cap. -/
structure EsQueryBody where
  semanticField : Str
  semanticQueryText : Str
  highlightFields : List (Str × Nat × Str)
  size : Nat
deriving DecidableEq

/-- One search request: the `index=` argument plus the body. -/
structure EsRequest where
  index : Str
  body : EsQueryBody
deriving DecidableEq

/-- The body built from the user's query (lines 67-88). -/
def mkEsQueryBody (query : Str) : EsQueryBody :=
  { semanticField := str ("semantic_text")
    semanticQueryText := query
    highlightFields := [(str ("semantic_text"), 2, str ("score"))]
    size := 10 }

/-- Source lines 66-90: `get_elasticsearch_results(query)`.  The hosted search
endpoint is a parameter (`search`); the first component of the result is the
list of requests issued during the call, the second is `result["hits"]["hits"]`
returned verbatim. -/
def get_elasticsearch_results (search : EsRequest → List SearchHit)
    (query : Str) : List EsRequest × List SearchHit :=
  let req : EsRequest := { index := kbIndexName, body := mkEsQueryBody query }
  ([req], search req)

/-!  ## One script run (lines 202-304)

A Streamlit rerun executes the file top to bottom.  `scriptRun` models the part
after the form, as a function of: the two credentials' presence (`esOk`,
`openaiOk`, from lines 30-52), the form state (`submitted`, `issue`), what the
search endpoint would return (`esHits`), the session dataframe entering the run
(`df0`), the formatted current date (`today`), and the dataframe the user's
interactive edits produce in `st.data_editor` (`editedDf`).  The output records
every user-visible surface the claims mention, in source order. -/

structure AppRun where
  esWarning : Bool
  openaiWarning : Bool
  searchCalled : Bool
  generatorCalled : Bool
  assistantUnavailableShown : Bool
  autoTicketShown : Option Ticket
  sessionDf : List Ticket
  tableShown : List Ticket
  editorDisabledCols : List Str
  editorStatusChoices : List Str
  editorPriorityChoices : List Str
  editorReturn : List Ticket
  numOpenMetric : Nat
  statusChartData : List Ticket
  priorityChartData : List Ticket
deriving DecidableEq

def scriptRun (esOk openaiOk submitted : Bool) (issue : Str)
    (esHits : List SearchHit) (df0 : List Ticket) (today : Str)
    (editedDf : List Ticket) : AppRun :=
  let assistantReady := esOk && openaiOk
  let runSearch := submitted && !issue.isEmpty && assistantReady
  let fallback := runSearch && esHits.isEmpty
  let sessionDf1 := if fallback then autoTicket df0 issue today :: df0 else df0
  { esWarning := !esOk
    openaiWarning := !openaiOk
    searchCalled := runSearch
    generatorCalled := runSearch && !esHits.isEmpty
    assistantUnavailableShown := submitted && !assistantReady
    autoTicketShown := if fallback then some (autoTicket df0 issue today) else none
    sessionDf := sessionDf1
    tableShown := sessionDf1
    editorDisabledCols := [str ("ID"), str ("Date Submitted")]
    editorStatusChoices := statusChoices
    editorPriorityChoices := priorityChoices
    editorReturn := editedDf
    numOpenMetric := (sessionDf1.filter (fun t => decide (t.status = str ("Open")))).length
    statusChartData := editedDf
    priorityChartData := editedDf }

/-!  ## Reachable session dataframes (C6)

The session collection is created once (seed block, lines 149-193) and changed
only by the fallback prepend (line 228).  Interactive edits do not write to
`st.session_state.df` (the editor's result is only bound to `edited_df`, see
the C7 theorems), so they contribute no transition.  A fallback only happens
for a truthy (non-empty) issue string (line 202). -/
inductive ReachableDf : List Ticket → Prop where
  | seed (np py : Nat → Nat) : ReachableDf (seedTickets np py)
  | fallback (df : List Ticket) (issue today : Str) (h : issue ≠ [])
      (hr : ReachableDf df) : ReachableDf (autoTicket df issue today :: df)

/-- A fixed seed instance (concrete draw streams) used for the C6 scenario. -/
def seed0 : List Ticket := seedTickets (fun _ => 0) (fun _ => 0)

/-- One fallback creation with a fixed non-empty issue and date: the step
iterated in the C6 scenario. -/
def stepT (df : List Ticket) : List Ticket :=
  autoTicket df (str ("x")) (str ("01-01-2024")) :: df

/-!  ## Lemmas about decimal rendering  -/

theorem natDigitsAux_append (fuel : Nat) : ∀ (n : Nat) (acc : Str),
    natDigitsAux fuel n acc = natDigitsAux fuel n [] ++ acc := by
  induction fuel with
  | zero => intro n acc; rfl
  | succ fuel ih =>
    intro n acc
    by_cases h : n < 10
    · simp [natDigitsAux, h]
    · simp only [natDigitsAux, if_neg h]
      rw [ih (n / 10) (digitChar (n % 10) :: acc),
        ih (n / 10) (digitChar (n % 10) :: [])]
      simp

theorem natDigitsAux_fuel (fuel : Nat) : ∀ (gas n : Nat) (acc : Str),
    n < fuel → n < gas → natDigitsAux fuel n acc = natDigitsAux gas n acc := by
  induction fuel with
  | zero => intro gas n acc h; omega
  | succ fuel ih =>
    intro gas n acc hf hg
    match gas, hg with
    | gas + 1, hg =>
      by_cases h : n < 10
      · simp [natDigitsAux, h]
      · simp only [natDigitsAux, if_neg h]
        exact ih gas (n / 10) _ (by omega) (by omega)

theorem natDigits_lt10 {n : Nat} (h : n < 10) : natDigits n = [digitChar n] := by
  simp [natDigits, natDigitsAux, h]

theorem natDigits_ge10 {n : Nat} (h : 10 ≤ n) :
    natDigits n = natDigits (n / 10) ++ [digitChar (n % 10)] := by
  have h1 : natDigits n = natDigitsAux n (n / 10) [digitChar (n % 10)] := by
    simp [natDigits, natDigitsAux, Nat.not_lt.mpr h]
  rw [h1, natDigitsAux_append]
  have h2 : natDigitsAux n (n / 10) [] = natDigits (n / 10) := by
    apply natDigitsAux_fuel <;> omega
  rw [h2]

theorem digitsToNat_append_single (l : Str) (c : Nat) :
    digitsToNat (l ++ [c]) = digitsToNat l * 10 + (c - 48) := by
  simp [digitsToNat, List.foldl_append]

theorem digitsToNat_natDigits (n : Nat) : digitsToNat (natDigits n) = n := by
  induction n using Nat.strong_induction_on with
  | _ n ih =>
    by_cases h : n < 10
    · rw [natDigits_lt10 h]
      simp [digitsToNat, digitChar]
    · rw [natDigits_ge10 (by omega), digitsToNat_append_single,
        ih (n / 10) (by omega)]
      simp [digitChar]
      omega

theorem natDigits_mem_range : ∀ (fuel n : Nat) (acc : Str),
    (∀ c ∈ acc, 48 ≤ c ∧ c ≤ 57) →
    ∀ c ∈ natDigitsAux fuel n acc, 48 ≤ c ∧ c ≤ 57 := by
  intro fuel
  induction fuel with
  | zero => intro n acc hacc; exact hacc
  | succ fuel ih =>
    intro n acc hacc c hc
    by_cases h : n < 10
    · simp only [natDigitsAux, if_pos h] at hc
      rcases List.mem_cons.mp hc with h1 | h1
      · subst h1; simp [digitChar]; omega
      · exact hacc c h1
    · simp only [natDigitsAux, if_neg h] at hc
      refine ih (n / 10) (digitChar (n % 10) :: acc) ?_ c hc
      intro d hd
      rcases List.mem_cons.mp hd with h1 | h1
      · subst h1; simp [digitChar]; omega
      · exact hacc d h1

theorem natDigits_digits (n : Nat) : ∀ c ∈ natDigits n, 48 ≤ c ∧ c ≤ 57 :=
  natDigits_mem_range (n + 1) n [] (by simp)

/-!  ## Lemmas about `split("-")` and `numericSuffix`  -/

theorem splitDashAux_no_dash : ∀ (s cur : Str), (∀ c ∈ s, c ≠ 45) →
    splitDashAux s cur = [cur.reverse ++ s] := by
  intro s
  induction s with
  | nil => intro cur h; simp [splitDashAux]
  | cons c rest ih =>
    intro cur h
    have hc : c ≠ 45 := h c (List.mem_cons_self c rest)
    simp only [splitDashAux, if_neg hc]
    rw [ih (c :: cur) (fun d hd => h d (List.mem_cons_of_mem c hd))]
    simp

theorem splitDash_ticketId (n : Nat) :
    splitDash (ticketId n) = [str ("TICKET"), natDigits n] := by
  have hdig : ∀ c ∈ natDigits n, c ≠ 45 := by
    intro c hc
    have := natDigits_digits n c hc
    omega
  show splitDashAux (str ("TICKET-") ++ natDigits n) [] = _
  have hpre : str ("TICKET-") = [84, 73, 67, 75, 69, 84, 45] := by decide
  rw [hpre]
  show splitDashAux (84 :: 73 :: 67 :: 75 :: 69 :: 84 :: 45 :: natDigits n) [] = _
  simp only [splitDashAux, if_neg (by decide : ¬ (84 : Nat) = 45),
    if_neg (by decide : ¬ (73 : Nat) = 45), if_neg (by decide : ¬ (67 : Nat) = 45),
    if_neg (by decide : ¬ (75 : Nat) = 45), if_neg (by decide : ¬ (69 : Nat) = 45),
    if_pos (rfl : (45 : Nat) = 45)]
  rw [splitDashAux_no_dash (natDigits n) [] hdig]
  rfl

theorem numericSuffix_ticketId (n : Nat) : numericSuffix (ticketId n) = n := by
  rw [numericSuffix, splitDash_ticketId]
  exact digitsToNat_natDigits n

/-!  ## Lemmas about `lexLt` on ticket IDs  -/

theorem lexLt_append_same : ∀ (p a b : Str),
    lexLt (p ++ a) (p ++ b) = lexLt a b := by
  intro p
  induction p with
  | nil => intro a b; rfl
  | cons c p ih =>
    intro a b
    show lexLt (c :: (p ++ a)) (c :: (p ++ b)) = lexLt a b
    simp only [lexLt, if_neg (lt_irrefl c)]
    exact ih a b

/-- Decimal expansion of a four-digit number. -/
theorem natDigits_four {k : Nat} (h1 : 1000 ≤ k) (h2 : k ≤ 9999) :
    natDigits k = [digitChar (k / 10 / 10 / 10), digitChar (k / 10 / 10 % 10),
      digitChar (k / 10 % 10), digitChar (k % 10)] := by
  rw [natDigits_ge10 (by omega),
    natDigits_ge10 (show 10 ≤ k / 10 by omega),
    natDigits_ge10 (show 10 ≤ k / 10 / 10 by omega),
    natDigits_lt10 (show k / 10 / 10 / 10 < 10 by omega)]
  simp

/-- On four-digit suffixes, Python string `<` on ticket IDs coincides with
numeric `<` on the suffixes. -/
theorem lexLt_ticketId {a b : Nat} (ha1 : 1000 ≤ a) (ha2 : a ≤ 9999)
    (hb1 : 1000 ≤ b) (hb2 : b ≤ 9999) :
    lexLt (ticketId a) (ticketId b) = true ↔ a < b := by
  rw [ticketId, ticketId, lexLt_append_same, natDigits_four ha1 ha2,
    natDigits_four hb1 hb2]
  simp only [lexLt, digitChar]
  split_ifs <;> (try simp) <;> omega

/-!  ## Lemmas about `pyMax` and `maxSuffix`  -/

theorem foldl_pyMax_stay : ∀ (l : List Str) (acc : Str),
    (∀ y ∈ l, lexLt acc y = false) →
    l.foldl (fun a y => if lexLt a y then y else a) acc = acc := by
  intro l
  induction l with
  | nil => intro acc _; rfl
  | cons y l ih =>
    intro acc h
    rw [List.foldl_cons]
    have hy : lexLt acc y = false := h y (List.mem_cons_self y l)
    simp only [hy, Bool.false_eq_true, if_false]
    exact ih acc (fun z hz => h z (List.mem_cons_of_mem y hz))

theorem mem_descIds {y : Str} {n : Nat} (h : 1000 ≤ n) :
    y ∈ descIds n ↔ ∃ m, 1001 ≤ m ∧ m ≤ n ∧ y = ticketId m := by
  rw [descIds]
  simp only [List.mem_map, List.mem_range]
  constructor
  · rintro ⟨i, hi, rfl⟩
    exact ⟨n - i, by omega, by omega, rfl⟩
  · rintro ⟨m, hm1, hm2, rfl⟩
    refine ⟨n - m, by omega, ?_⟩
    congr 1
    omega

theorem descIds_cons {n : Nat} (h : 1000 ≤ n) :
    descIds (n + 1) = ticketId (n + 1) :: descIds n := by
  have h1 : n + 1 - 1000 = (n - 1000) + 1 := by omega
  rw [descIds, h1, List.range_succ_eq_map, List.map_cons, List.map_map, descIds]
  simp only [List.cons.injEq]
  refine ⟨congrArg ticketId (by omega), ?_⟩
  apply List.map_congr_left
  intro i _
  simp only [Function.comp_apply]
  exact congrArg ticketId (by omega)

theorem pyMax_cons (x : Str) (xs : List Str) :
    pyMax (x :: xs) = xs.foldl (fun acc y => if lexLt acc y then y else acc) x := rfl

theorem pyMax_descIds {n : Nat} (h1 : 1001 ≤ n) (h2 : n ≤ 9999) :
    pyMax (descIds n) = ticketId n := by
  obtain ⟨m, rfl⟩ : ∃ m, n = m + 1 := ⟨n - 1, by omega⟩
  rw [descIds_cons (by omega), pyMax_cons]
  apply foldl_pyMax_stay
  intro y hy
  rw [mem_descIds (by omega)] at hy
  obtain ⟨k, hk1, hk2, rfl⟩ := hy
  have hiff := lexLt_ticketId (a := m + 1) (b := k) (by omega) (by omega)
    (by omega) (by omega)
  rw [Bool.eq_false_iff, Ne, hiff]
  omega

theorem pyMax_descIds_10000 : pyMax (descIds 10000) = ticketId 9999 := by
  have h1 : descIds 10000 = ticketId 10000 :: ticketId 9999 :: descIds 9998 := by
    rw [show (10000 : Nat) = 9999 + 1 from rfl, descIds_cons (by omega),
      show (9999 : Nat) = 9998 + 1 from rfl, descIds_cons (by omega)]
  rw [h1, pyMax_cons, List.foldl_cons]
  have hlt : lexLt (ticketId 10000) (ticketId 9999) = true := by decide
  simp only [hlt, if_true]
  apply foldl_pyMax_stay
  intro y hy
  rw [mem_descIds (by omega)] at hy
  obtain ⟨k, hk1, hk2, rfl⟩ := hy
  have hiff := lexLt_ticketId (a := 9999) (b := k) (by omega) (by omega)
    (by omega) (by omega)
  rw [Bool.eq_false_iff, Ne, hiff]
  omega

theorem descIds_length_pos {n : Nat} (h : 1001 ≤ n) : (descIds n).length > 0 := by
  rw [descIds, List.length_map, List.length_range]
  omega

theorem next_descIds {n : Nat} (h1 : 1001 ≤ n) (h2 : n ≤ 9999) :
    next_ticket_number (descIds n) = n + 1 := by
  rw [next_ticket_number, recent_ticket_number, if_pos (descIds_length_pos h1),
    pyMax_descIds h1 h2, numericSuffix_ticketId]

theorem next_descIds_10000 : next_ticket_number (descIds 10000) = 10000 := by
  rw [next_ticket_number, recent_ticket_number,
    if_pos (descIds_length_pos (by omega)), pyMax_descIds_10000,
    numericSuffix_ticketId]

theorem ticketId_inj {m n : Nat} (h : ticketId m = ticketId n) : m = n := by
  have h2 : numericSuffix (ticketId m) = numericSuffix (ticketId n) := by rw [h]
  rwa [numericSuffix_ticketId, numericSuffix_ticketId] at h2

theorem nodup_descIds (n : Nat) : (descIds n).Nodup := by
  rw [descIds]
  refine List.Nodup.map_on ?_ (List.nodup_range _)
  intro i hi j hj hf
  rw [List.mem_range] at hi hj
  have := ticketId_inj hf
  omega

theorem maxSuffix_map_ticketId (ns : List Nat) :
    maxSuffix (ns.map ticketId) = ns.foldr max 0 := by
  rw [maxSuffix, List.foldr_map]
  have hfun : (fun (n : Nat) (m : Nat) => max (numericSuffix (ticketId n)) m)
      = fun n m => max n m := by
    funext n m
    rw [numericSuffix_ticketId]
  rw [hfun]

theorem foldr_max_le (l : List Nat) (n : Nat) (h : ∀ x ∈ l, x ≤ n) :
    l.foldr max 0 ≤ n := by
  induction l with
  | nil => simp
  | cons a l ih =>
    rw [List.foldr_cons, Nat.max_le]
    exact ⟨h a (List.mem_cons_self a l),
      ih (fun x hx => h x (List.mem_cons_of_mem a hx))⟩

theorem foldr_max_eq : ∀ (l : List Nat) (n : Nat), n ∈ l →
    (∀ x ∈ l, x ≤ n) → l.foldr max 0 = n := by
  intro l
  induction l with
  | nil => intro n hmem _; cases hmem
  | cons a l ih =>
    intro n hmem hle
    rw [List.foldr_cons]
    rcases List.mem_cons.mp hmem with h1 | h1
    · subst h1
      have hb := foldr_max_le l n (fun x hx => hle x (List.mem_cons_of_mem n hx))
      exact Nat.max_eq_left hb
    · rw [ih n h1 (fun x hx => hle x (List.mem_cons_of_mem a hx))]
      exact Nat.max_eq_right (hle a (List.mem_cons_self a l))

theorem descIds_eq_map (n : Nat) :
    descIds n = ((List.range (n - 1000)).map (fun i => n - i)).map ticketId := by
  rw [descIds, List.map_map]
  rfl

theorem maxSuffix_descIds {n : Nat} (h : 1001 ≤ n) : maxSuffix (descIds n) = n := by
  rw [descIds_eq_map, maxSuffix_map_ticketId]
  apply foldr_max_eq
  · rw [List.mem_map]
    exact ⟨0, by rw [List.mem_range]; omega, by omega⟩
  · intro x hx
    rw [List.mem_map] at hx
    obtain ⟨i, _, rfl⟩ := hx
    omega

/-!  ## The numeric fold behind `pyMax` on four-digit IDs (for C1)  -/

theorem if_lt_eq_max : (fun (a y : Nat) => if a < y then y else a) = max := by
  funext a y
  rw [Nat.max_def]
  split_ifs <;> omega

theorem foldl_max_acc (l : List Nat) : ∀ acc, l.foldl max acc = max acc (l.foldr max 0) := by
  induction l with
  | nil => intro acc; simp
  | cons a l ih =>
    intro acc
    rw [List.foldl_cons, ih, List.foldr_cons, Nat.max_assoc]

theorem pyMax_map_ticketId : ∀ (ns : List Nat) (a : Nat),
    1000 ≤ a → a ≤ 9999 → (∀ m ∈ ns, 1000 ≤ m ∧ m ≤ 9999) →
    (ns.map ticketId).foldl (fun acc y => if lexLt acc y then y else acc) (ticketId a)
      = ticketId (ns.foldl (fun acc y => if acc < y then y else acc) a) := by
  intro ns
  induction ns with
  | nil => intro a _ _ _; rfl
  | cons m ns ih =>
    intro a ha1 ha2 hm
    rw [List.map_cons, List.foldl_cons, List.foldl_cons]
    have hm1 := hm m (List.mem_cons_self m ns)
    have hcond : lexLt (ticketId a) (ticketId m) = true ↔ a < m :=
      lexLt_ticketId ha1 ha2 hm1.1 hm1.2
    have hstep : (if lexLt (ticketId a) (ticketId m) then ticketId m else ticketId a)
        = ticketId (if a < m then m else a) := by
      by_cases h : a < m
      · rw [if_pos (hcond.mpr h), if_pos h]
      · rw [if_neg (fun hh => h (hcond.mp hh)), if_neg h]
    rw [hstep]
    refine ih (if a < m then m else a) ?_ ?_
      (fun x hx => hm x (List.mem_cons_of_mem m hx))
    · split_ifs <;> omega
    · split_ifs <;> omega

theorem next_eq_maxSuffix_add_one (ns : List Nat) (hne : ns ≠ [])
    (hrange : ∀ m ∈ ns, 1000 ≤ m ∧ m ≤ 9999) :
    next_ticket_number (ns.map ticketId) = maxSuffix (ns.map ticketId) + 1 := by
  match ns, hne with
  | a :: ns, _ =>
    rw [next_ticket_number, recent_ticket_number,
      if_pos (by simp : ((a :: ns).map ticketId).length > 0), List.map_cons,
      pyMax_cons]
    have ha := hrange a (List.mem_cons_self a ns)
    rw [pyMax_map_ticketId ns a ha.1 ha.2
      (fun m hm => hrange m (List.mem_cons_of_mem a hm)), numericSuffix_ticketId,
      ← List.map_cons, maxSuffix_map_ticketId (a :: ns), if_lt_eq_max,
      foldl_max_acc, List.foldr_cons]

/-!  ## The iterated fallback scenario (for C6)  -/

theorem stepT_ids (df : List Ticket) :
    (stepT df).map Ticket.id
      = ticketId (next_ticket_number (df.map Ticket.id)) :: df.map Ticket.id := rfl

theorem seedTickets_ids (np py : Nat → Nat) :
    (seedTickets np py).map Ticket.id = descIds 1100 := by
  rw [seedTickets, descIds, List.map_map]
  rfl

theorem stepT_iterate_ids : ∀ k, k ≤ 8900 →
    (stepT^[k] seed0).map Ticket.id = descIds (1100 + k) := by
  intro k
  induction k with
  | zero => intro _; exact seedTickets_ids _ _
  | succ k ih =>
    intro hk
    rw [Function.iterate_succ_apply', stepT_ids, ih (by omega),
      next_descIds (by omega) (by omega),
      show 1100 + (k + 1) = (1100 + k) + 1 from rfl,
      descIds_cons (by omega)]

theorem reachable_stepT {df : List Ticket} (h : ReachableDf df) :
    ReachableDf (stepT df) :=
  ReachableDf.fallback df (str ("x")) (str ("01-01-2024")) (by decide) h

theorem reachable_stepT_iterate (k : Nat) : ReachableDf (stepT^[k] seed0) := by
  induction k with
  | zero =>
    rw [Function.iterate_zero_apply]
    exact ReachableDf.seed (fun _ => 0) (fun _ => 0)
  | succ k ih =>
    rw [Function.iterate_succ_apply']
    exact reachable_stepT ih

theorem ids_8901 : (stepT^[8901] seed0).map Ticket.id
    = ticketId 10000 :: descIds 10000 := by
  rw [show (8901 : Nat) = 8900 + 1 from rfl, Function.iterate_succ_apply',
    stepT_ids, stepT_iterate_ids 8900 (le_refl _),
    show (1100 + 8900 : Nat) = 10000 from rfl, next_descIds_10000]

theorem ticketId_10000_mem : ticketId 10000 ∈ descIds 10000 := by
  rw [mem_descIds (by omega)]
  exact ⟨10000, by omega, le_refl _, rfl⟩

theorem fresh_id_not_mem {k : Nat} (h : k ≤ 8899) :
    ticketId (1101 + k) ∉ descIds (1100 + k) := by
  intro hmem
  rw [mem_descIds (by omega)] at hmem
  obtain ⟨m, hm1, hm2, hm3⟩ := hmem
  have := ticketId_inj hm3
  omega

/-!  ## Lemmas about the prompt assembler  -/

/-- Spec-side description of the allow-list fallback (§4.2/§8 of the spec):
append exactly the allow-listed fields, as `field: value` lines in allow-list
order, skipping any field whose value is absent or empty. -/
def specFieldLines (src : List (Str × Str)) (fields : List Str) : Str :=
  (fields.filterMap (fun f =>
    match lookupStr f src with
    | none => none
    | some v =>
      if v = [] then none
      else some (f ++ str (": ") ++ v ++ str ("\n")))).flatten

def exceptIsOk : Except PromptErr Str → Bool
  | Except.ok _ => true
  | Except.error _ => false

/-- When every listed field is present in the source dict, the source loop
succeeds and produces exactly the spec-described lines. -/
theorem sourceFieldsContext_ok : ∀ (fields : List Str) (src : List (Str × Str)),
    (∀ f ∈ fields, (lookupStr f src).isSome = true) →
    sourceFieldsContext src fields = Except.ok (specFieldLines src fields) := by
  intro fields
  induction fields with
  | nil => intro src _; rfl
  | cons f fields ih =>
    intro src h
    have hf := h f (List.mem_cons_self f fields)
    cases hv : lookupStr f src with
    | none => rw [hv] at hf; cases hf
    | some v =>
      simp only [sourceFieldsContext, hv]
      rw [ih src (fun g hg => h g (List.mem_cons_of_mem f hg))]
      simp only [Except.map, specFieldLines, List.filterMap_cons, hv]
      by_cases hve : v = []
      · simp [hve, specFieldLines]
      · simp [hve, specFieldLines]

/-- Each hit's contribution sits inside the assembled context: if the whole
context was built, position `i`'s contribution `c` appears between the earlier
and later hits' contributions. -/
theorem buildContext_decomp : ∀ (results : List SearchHit) (ctx : Str) (i : Nat)
    (hi : i < results.length), buildContext results = Except.ok ctx →
    ∃ c pre post, hitContext (results.get ⟨i, hi⟩) = Except.ok c ∧
      ctx = pre ++ c ++ post := by
  intro results
  induction results with
  | nil =>
    intro ctx i hi
    exact absurd hi (by simp)
  | cons h rest ih =>
    intro ctx i hi hok
    cases hhc : hitContext h with
    | error e =>
      simp only [buildContext, hhc] at hok
      cases hok
    | ok c =>
      cases hbr : buildContext rest with
      | error e =>
        simp only [buildContext, hhc, hbr, Except.map] at hok
        cases hok
      | ok t =>
        simp only [buildContext, hhc, hbr, Except.map, Except.ok.injEq] at hok
        cases i with
        | zero =>
          refine ⟨c, [], t, hhc, ?_⟩
          rw [← hok]
          simp
        | succ i =>
          obtain ⟨c2, pre2, post2, hco, hceq⟩ :=
            ih t i (by simpa using hi) hbr
          refine ⟨c2, c ++ pre2, post2, hco, ?_⟩
          rw [← hok, hceq]
          simp [List.append_assoc]

theorem seedTickets_issue (np py : Nat → Nat) :
    (seedTickets np py).map Ticket.issue
      = (List.range 100).map (fun i => issue_descriptions.getD (np i % 20) []) := by
  rw [seedTickets, List.map_map]
  rfl

theorem seedTickets_status (np py : Nat → Nat) :
    (seedTickets np py).map Ticket.status
      = (List.range 100).map (fun i => statusChoices.getD (np (100 + i) % 3) []) := by
  rw [seedTickets, List.map_map]
  rfl

theorem seedTickets_priority (np py : Nat → Nat) :
    (seedTickets np py).map Ticket.priority
      = (List.range 100).map (fun i => priorityChoices.getD (np (200 + i) % 3) []) := by
  rw [seedTickets, List.map_map]
  rfl

/-!  ## Claim C1  -/

/-- C1 counterexample.  The claim says the fallback ID is one greater than the
maximum numeric suffix, and 1001 on an empty collection.  The code instead
yields 1002 on an empty collection (`1001 + 1`), and on
`["TICKET-999", "TICKET-1000"]` yields 1000 (Python `max` is lexicographic, so
`"TICKET-999"` wins over `"TICKET-1000"`), not the claimed
`maxSuffix + 1 = 1001`. -/
theorem C1_counterexample :
    next_ticket_number [] = 1002 ∧
    next_ticket_number [ticketId 999, ticketId 1000] = 1000 ∧
    maxSuffix [ticketId 999, ticketId 1000] + 1 = 1001 := by decide

/-- C1 (amended): the fallback ID is `1002` on an empty collection, and it
equals one greater than the maximum numeric suffix provided all existing
suffixes have the same digit count (here: four digits, `1000..9999`), because
lexicographic and numeric order then agree. -/
theorem C1_next_id_amended :
    next_ticket_number [] = 1002 ∧
    ∀ (ns : List Nat), ns ≠ [] → (∀ m ∈ ns, 1000 ≤ m ∧ m ≤ 9999) →
      next_ticket_number (ns.map ticketId) = maxSuffix (ns.map ticketId) + 1 :=
  ⟨by decide, fun ns hne hr => next_eq_maxSuffix_add_one ns hne hr⟩

/-- C1 witness: the amended statement at the concrete collection
`["TICKET-1005", "TICKET-1017"]`, whose next ID is `1017 + 1`. -/
theorem C1_witness :
    next_ticket_number [ticketId 1005, ticketId 1017]
      = maxSuffix [ticketId 1005, ticketId 1017] + 1 :=
  C1_next_id_amended.2 [1005, 1017] (by decide) (by decide)

/-!  ## Claim C2  -/

/-- C2: when a non-empty issue is submitted with both credentials present and
the retriever returns zero hits, the generator is not called and exactly one
new ticket is prepended to the session collection (appearing first in the
displayed table) with status `Open`, priority `Medium`, product
`Auto-generated`, order reference `ORDER-<n>` for the new ticket number `n`,
the submitted issue text, and the current date. -/
theorem C2_ticket_fallback (esOk openaiOk submitted : Bool) (issue today : Str)
    (df0 editedDf : List Ticket)
    (hs : submitted = true) (hi : issue ≠ []) (he : esOk = true)
    (ho : openaiOk = true) :
    (scriptRun esOk openaiOk submitted issue [] df0 today editedDf).generatorCalled
        = false ∧
    (scriptRun esOk openaiOk submitted issue [] df0 today editedDf).searchCalled
        = true ∧
    (scriptRun esOk openaiOk submitted issue [] df0 today editedDf).sessionDf
        = autoTicket df0 issue today :: df0 ∧
    (scriptRun esOk openaiOk submitted issue [] df0 today editedDf).tableShown.head?
        = some (autoTicket df0 issue today) ∧
    (scriptRun esOk openaiOk submitted issue [] df0 today editedDf).tableShown.length
        = df0.length + 1 ∧
    (scriptRun esOk openaiOk submitted issue [] df0 today editedDf).autoTicketShown
        = some (autoTicket df0 issue today) ∧
    (autoTicket df0 issue today).status = str ("Open") ∧
    (autoTicket df0 issue today).priority = str ("Medium") ∧
    (autoTicket df0 issue today).product = some (str ("Auto-generated")) ∧
    (autoTicket df0 issue today).orderRef
        = some (orderRefStr (next_ticket_number (df0.map Ticket.id))) ∧
    (autoTicket df0 issue today).issue = issue ∧
    (autoTicket df0 issue today).dateSubmitted = DateCell.text today := by
  subst hs he ho
  cases issue with
  | nil => exact absurd rfl hi
  | cons a s =>
    exact ⟨rfl, rfl, rfl, rfl, rfl, rfl, rfl, rfl, rfl, rfl, rfl, rfl⟩

/-- C2 witness: the fallback at a concrete submission over an empty
collection. -/
theorem C2_witness :
    (scriptRun true true true (str ("x")) [] [] (str ("d")) []).generatorCalled
        = false ∧
    (scriptRun true true true (str ("x")) [] [] (str ("d")) []).searchCalled
        = true ∧
    (scriptRun true true true (str ("x")) [] [] (str ("d")) []).sessionDf
        = autoTicket [] (str ("x")) (str ("d")) :: [] ∧
    (scriptRun true true true (str ("x")) [] [] (str ("d")) []).tableShown.head?
        = some (autoTicket [] (str ("x")) (str ("d"))) ∧
    (scriptRun true true true (str ("x")) [] [] (str ("d")) []).tableShown.length
        = List.length ([] : List Ticket) + 1 ∧
    (scriptRun true true true (str ("x")) [] [] (str ("d")) []).autoTicketShown
        = some (autoTicket [] (str ("x")) (str ("d"))) ∧
    (autoTicket [] (str ("x")) (str ("d"))).status = str ("Open") ∧
    (autoTicket [] (str ("x")) (str ("d"))).priority = str ("Medium") ∧
    (autoTicket [] (str ("x")) (str ("d"))).product = some (str ("Auto-generated")) ∧
    (autoTicket [] (str ("x")) (str ("d"))).orderRef
        = some (orderRefStr (next_ticket_number (List.map Ticket.id []))) ∧
    (autoTicket [] (str ("x")) (str ("d"))).issue = str ("x") ∧
    (autoTicket [] (str ("x")) (str ("d"))).dateSubmitted = DateCell.text (str ("d")) :=
  C2_ticket_fallback true true true (str ("x")) (str ("d")) [] [] rfl
    (by decide) rfl rfl

/-!  ## Claim C3  -/

/-- C3: for every result list from which the prompt was assembled, every hit
carrying a highlight mapping contributes exactly its highlight fragments -
flattened across all highlighted fields and joined with the fixed separator -
in place of its raw source fields, and that joined block appears inside the
assembled prompt; no present fragment is omitted. -/
theorem C3_highlights_included (results : List SearchHit) (p : Str) (i : Nat)
    (hi : i < results.length) (hl : List (Str × List Str))
    (hok : create_openai_prompt results = Except.ok p)
    (hhl : (results.get ⟨i, hi⟩).highlight = some hl) :
    hitContext (results.get ⟨i, hi⟩)
        = Except.ok (strJoin hlSep ((hl.map Prod.snd).flatten)) ∧
    ∃ pre post, p = pre ++ strJoin hlSep ((hl.map Prod.snd).flatten) ++ post := by
  have hhit : hitContext (results.get ⟨i, hi⟩)
      = Except.ok (strJoin hlSep ((hl.map Prod.snd).flatten)) := by
    simp only [hitContext, hhl]
  refine ⟨hhit, ?_⟩
  rw [create_openai_prompt] at hok
  cases hbc : buildContext results with
  | error e =>
    rw [hbc] at hok
    cases hok
  | ok ctx =>
    rw [hbc] at hok
    simp only [Except.map, Except.ok.injEq] at hok
    obtain ⟨c, pre, post, hc, hceq⟩ := buildContext_decomp results ctx i hi hbc
    rw [hhit] at hc
    injection hc with hc
    refine ⟨promptPre ++ pre, post ++ promptPost, ?_⟩
    rw [← hok, hceq, hc]
    simp [List.append_assoc]

def c3HL : List (Str × List Str) :=
  [(str ("semantic_text"), [str ("frag one"), str ("frag two")])]

def c3Hit : SearchHit :=
  { index := kbIndexName, source := [], highlight := some c3HL }

def c3Joined : Str := strJoin hlSep ((c3HL.map Prod.snd).flatten)

def c3Prompt : Str := promptPre ++ c3Joined ++ promptPost

/-- C3 witness: a concrete single-hit result with two highlight fragments; its
contribution is exactly the two fragments joined by the separator. -/
theorem C3_witness :
    hitContext c3Hit = Except.ok c3Joined ∧
    create_openai_prompt [c3Hit] = Except.ok c3Prompt := by
  have hok : create_openai_prompt [c3Hit] = Except.ok c3Prompt := by
    show (buildContext [c3Hit]).map (fun ctx => promptPre ++ ctx ++ promptPost)
        = Except.ok c3Prompt
    rw [show buildContext [c3Hit] = Except.ok (c3Joined ++ []) from rfl]
    show Except.ok (promptPre ++ (c3Joined ++ []) ++ promptPost) = Except.ok c3Prompt
    rw [List.append_nil, c3Prompt]
  exact ⟨(C3_highlights_included [c3Hit] c3Prompt 0 (by decide) c3HL hok rfl).1, hok⟩

/-!  ## Claim C4  -/

def c4AbsentHit : SearchHit := { index := kbIndexName, source := [], highlight := none }

/-- C4 counterexample.  The claim says a hit lacking a highlight mapping gets
exactly the allow-listed fields appended, "skipping any field whose value is
absent or empty".  On a hit from the allow-listed index whose source contains
none of the fields, the code raises `KeyError` at the first allow-listed field
instead of skipping it. -/
theorem C4_counterexample :
    hitContext c4AbsentHit
        = Except.error (PromptErr.keyErr (str ("conversation.title"))) ∧
    buildContext [c4AbsentHit]
        = Except.error (PromptErr.keyErr (str ("conversation.title"))) := by decide

/-- C4 (amended): for a hit lacking a highlight mapping, from the allow-listed
index, whose source contains every allow-listed field, the assembler appends
exactly the allow-listed fields as `field: value` lines in allow-list order,
skipping any field whose value is empty (an absent field instead raises
`KeyError`). -/
theorem C4_allowlist_fallback (hit : SearchHit)
    (h1 : hit.highlight = none) (h2 : hit.index = kbIndexName)
    (h3 : ∀ f ∈ kbSourceFields, (lookupStr f hit.source).isSome = true) :
    hitContext hit = Except.ok (specFieldLines hit.source kbSourceFields) := by
  simp only [hitContext, h1, h2]
  rw [show lookupStr kbIndexName index_source_fields = some kbSourceFields
    from by decide]
  exact sourceFieldsContext_ok kbSourceFields hit.source h3

def c4PresentSrc : List (Str × Str) :=
  [(str ("conversation.title"), str ("Returns policy")),
   (str ("doc_id"), str ("kb-1")),
   (str ("semantic_text"), str ("How to return an item")),
   (str ("text"), []),
   (str ("title"), str ("Returns"))]

def c4PresentHit : SearchHit :=
  { index := kbIndexName, source := c4PresentSrc, highlight := none }

/-- C4 witness: a concrete non-highlighted hit with all five allow-listed
fields present, one of them empty (it is skipped). -/
theorem C4_witness :
    hitContext c4PresentHit
      = Except.ok (specFieldLines c4PresentSrc kbSourceFields) :=
  C4_allowlist_fallback c4PresentHit rfl rfl (by decide)

/-!  ## Claim C5  -/

/-- C5: if the search credential is missing at startup (or symmetrically the
chat credential), a warning is surfaced for exactly the missing credential,
the assistant never searches or generates, and the ticket table, the editor
(with its editable Status/Priority columns and disabled ID/Date columns), the
metric and both charts still render from the unchanged collection. -/
theorem C5_missing_credential (esOk openaiOk submitted : Bool) (issue : Str)
    (esHits : List SearchHit) (df0 editedDf : List Ticket) (today : Str)
    (h : esOk = false ∨ openaiOk = false) :
    (scriptRun esOk openaiOk submitted issue esHits df0 today editedDf).esWarning
        = !esOk ∧
    (scriptRun esOk openaiOk submitted issue esHits df0 today editedDf).openaiWarning
        = !openaiOk ∧
    (scriptRun esOk openaiOk submitted issue esHits df0 today editedDf).searchCalled
        = false ∧
    (scriptRun esOk openaiOk submitted issue esHits df0 today editedDf).generatorCalled
        = false ∧
    (scriptRun esOk openaiOk submitted issue esHits df0 today editedDf).assistantUnavailableShown
        = submitted ∧
    (scriptRun esOk openaiOk submitted issue esHits df0 today editedDf).sessionDf
        = df0 ∧
    (scriptRun esOk openaiOk submitted issue esHits df0 today editedDf).tableShown
        = df0 ∧
    (scriptRun esOk openaiOk submitted issue esHits df0 today editedDf).editorDisabledCols
        = [str ("ID"), str ("Date Submitted")] ∧
    (scriptRun esOk openaiOk submitted issue esHits df0 today editedDf).editorStatusChoices
        = statusChoices ∧
    (scriptRun esOk openaiOk submitted issue esHits df0 today editedDf).editorPriorityChoices
        = priorityChoices ∧
    (scriptRun esOk openaiOk submitted issue esHits df0 today editedDf).editorReturn
        = editedDf ∧
    (scriptRun esOk openaiOk submitted issue esHits df0 today editedDf).numOpenMetric
        = (df0.filter (fun t => decide (t.status = str ("Open")))).length ∧
    (scriptRun esOk openaiOk submitted issue esHits df0 today editedDf).statusChartData
        = editedDf ∧
    (scriptRun esOk openaiOk submitted issue esHits df0 today editedDf).priorityChartData
        = editedDf := by
  rcases h with h | h <;> subst h <;> simp [scriptRun]

/-- C5 witness: missing search credential with the chat credential present, on
a concrete submitted run. -/
theorem C5_witness :
    (scriptRun false true true (str ("x")) [] [] (str ("d")) []).esWarning
        = true ∧
    (scriptRun false true true (str ("x")) [] [] (str ("d")) []).openaiWarning
        = false ∧
    (scriptRun false true true (str ("x")) [] [] (str ("d")) []).searchCalled
        = false ∧
    (scriptRun false true true (str ("x")) [] [] (str ("d")) []).generatorCalled
        = false ∧
    (scriptRun false true true (str ("x")) [] [] (str ("d")) []).assistantUnavailableShown
        = true ∧
    (scriptRun false true true (str ("x")) [] [] (str ("d")) []).sessionDf
        = [] ∧
    (scriptRun false true true (str ("x")) [] [] (str ("d")) []).tableShown
        = [] ∧
    (scriptRun false true true (str ("x")) [] [] (str ("d")) []).editorDisabledCols
        = [str ("ID"), str ("Date Submitted")] ∧
    (scriptRun false true true (str ("x")) [] [] (str ("d")) []).editorStatusChoices
        = statusChoices ∧
    (scriptRun false true true (str ("x")) [] [] (str ("d")) []).editorPriorityChoices
        = priorityChoices ∧
    (scriptRun false true true (str ("x")) [] [] (str ("d")) []).editorReturn
        = [] ∧
    (scriptRun false true true (str ("x")) [] [] (str ("d")) []).numOpenMetric
        = (([] : List Ticket).filter (fun t => decide (t.status = str ("Open")))).length ∧
    (scriptRun false true true (str ("x")) [] [] (str ("d")) []).statusChartData
        = [] ∧
    (scriptRun false true true (str ("x")) [] [] (str ("d")) []).priorityChartData
        = [] :=
  C5_missing_credential false true true (str ("x")) [] [] [] (str ("d"))
    (Or.inl rfl)

/-!  ## Claim C6  -/

/-- C6 counterexample.  The claim says that across every reachable sequence of
operations, ticket IDs are derived as the current maximum ID plus one and are
never reused.  The state reached by 8901 fallback creations from the seed is
reachable, yet its ID column contains a duplicate: the 8900th fallback creates
`TICKET-10000`, and the 8901st - because Python string `max` is lexicographic
and `"TICKET-9999" > "TICKET-10000"` - derives `9999 + 1 = 10000` again. -/
theorem C6_counterexample :
    ReachableDf (stepT^[8901] seed0) ∧
    ¬ ((stepT^[8901] seed0).map Ticket.id).Nodup := by
  refine ⟨reachable_stepT_iterate 8901, ?_⟩
  rw [ids_8901]
  intro hnd
  exact (List.nodup_cons.mp hnd).1 ticketId_10000_mem

/-- C6 (amended): IDs are derived as one plus the numeric suffix of the
lexicographically greatest ID string.  Along the fallback scenario from the
seed this equals the maximum numeric suffix plus one while every suffix stays
at most four digits: the first 8900 creations (through `TICKET-10000`) are
strictly fresh and the column stays duplicate-free, but the 8901st creation
reuses `TICKET-10000`. -/
theorem C6_ids_amended :
    (∀ k, k ≤ 8900 → ((stepT^[k] seed0).map Ticket.id).Nodup) ∧
    (∀ k, k ≤ 8899 →
      next_ticket_number ((stepT^[k] seed0).map Ticket.id)
          = maxSuffix ((stepT^[k] seed0).map Ticket.id) + 1 ∧
      (stepT^[k + 1] seed0).map Ticket.id
          = ticketId (1101 + k) :: (stepT^[k] seed0).map Ticket.id ∧
      ticketId (1101 + k) ∉ (stepT^[k] seed0).map Ticket.id) ∧
    ¬ ((stepT^[8901] seed0).map Ticket.id).Nodup := by
  refine ⟨?_, ?_, ?_⟩
  · intro k hk
    rw [stepT_iterate_ids k hk]
    exact nodup_descIds _
  · intro k hk
    have hids := stepT_iterate_ids k (by omega)
    refine ⟨?_, ?_, ?_⟩
    · rw [hids, next_descIds (by omega) (by omega), maxSuffix_descIds (by omega)]
    · rw [hids, stepT_iterate_ids (k + 1) (by omega),
        show 1100 + (k + 1) = (1100 + k) + 1 from rfl,
        descIds_cons (by omega), show 1101 + k = (1100 + k) + 1 by omega]
    · rw [hids]
      exact fresh_id_not_mem hk
  · rw [ids_8901]
    intro hnd
    exact (List.nodup_cons.mp hnd).1 ticketId_10000_mem

/-- C6 witness: the amended statement at the seed state: its ID column is
duplicate-free, and the first fallback creates the fresh ID `TICKET-1101`. -/
theorem C6_witness :
    (seed0.map Ticket.id).Nodup ∧
    (stepT seed0).map Ticket.id = ticketId 1101 :: seed0.map Ticket.id :=
  ⟨C6_ids_amended.1 0 (by decide), (C6_ids_amended.2.1 0 (by decide)).2.1⟩

/-!  ## Claim C7  -/

def c7Open : Ticket :=
  { id := ticketId 1001, orderRef := none, product := none,
    issue := str ("x"), status := str ("Open"), priority := str ("Low"),
    dateSubmitted := DateCell.date 738672 }

def c7Closed : Ticket :=
  { id := ticketId 1001, orderRef := none, product := none,
    issue := str ("x"), status := str ("Closed"), priority := str ("Low"),
    dateSubmitted := DateCell.date 738672 }

/-- C7 counterexample.  The claim says interactive edits mutate the session
collection in place, so that subsequent reads (the open-ticket metric, later
renders) see the edited values.  On a session holding one Open ticket that the
user edits to Closed, the session collection after the run is still the
original (the editor's result is only bound to `edited_df`), and the metric -
computed from `st.session_state.df` at line 271 - still counts 1 open ticket
where the claim predicts 0. -/
theorem C7_counterexample :
    (scriptRun true true false [] [] [c7Open] [] [c7Closed]).sessionDf
        = [c7Open] ∧
    (scriptRun true true false [] [] [c7Open] [] [c7Closed]).sessionDf
        ≠ [c7Closed] ∧
    (scriptRun true true false [] [] [c7Open] [] [c7Closed]).numOpenMetric
        = 1 ∧
    (scriptRun true true false [] [] [c7Open] [] [c7Closed]).editorReturn
        = [c7Closed] := by decide

/-- C7 (amended): interactive edits do not mutate the session collection.  The
edited dataframe is a separate value consumed only by the two charts; the
session collection and the open-ticket metric are computed independently of
it, and the metric counts the unedited session rows. -/
theorem C7_edits_not_persisted (esOk openaiOk submitted : Bool) (issue : Str)
    (esHits : List SearchHit) (df0 : List Ticket) (today : Str)
    (ed1 ed2 : List Ticket) :
    (scriptRun esOk openaiOk submitted issue esHits df0 today ed1).sessionDf
        = (scriptRun esOk openaiOk submitted issue esHits df0 today ed2).sessionDf ∧
    (scriptRun esOk openaiOk submitted issue esHits df0 today ed1).numOpenMetric
        = (scriptRun esOk openaiOk submitted issue esHits df0 today ed2).numOpenMetric ∧
    (scriptRun esOk openaiOk submitted issue esHits df0 today ed1).numOpenMetric
        = ((scriptRun esOk openaiOk submitted issue esHits df0 today ed1).sessionDf.filter
            (fun t => decide (t.status = str ("Open")))).length ∧
    (scriptRun esOk openaiOk submitted issue esHits df0 today ed1).statusChartData
        = ed1 ∧
    (scriptRun esOk openaiOk submitted issue esHits df0 today ed1).priorityChartData
        = ed1 :=
  ⟨rfl, rfl, rfl, rfl, rfl⟩

/-!  ## Claim C8  -/

/-- C8: every retrieval issues exactly one request, against the single fixed
index, with the semantic query targeting `semantic_text`, highlighting
configured for up to 2 fragments ordered by score on that field, size capped
at 10; the endpoint's hit sequence is returned verbatim. -/
theorem C8_request_shape (search : EsRequest → List SearchHit) (query : Str) :
    (get_elasticsearch_results search query).1.length = 1 ∧
    ∃ req, (get_elasticsearch_results search query).1 = [req] ∧
      req.index = kbIndexName ∧
      req.body.semanticField = str ("semantic_text") ∧
      req.body.semanticQueryText = query ∧
      req.body.highlightFields = [(str ("semantic_text"), 2, str ("score"))] ∧
      req.body.size = 10 ∧
      (get_elasticsearch_results search query).2 = search req :=
  ⟨rfl, { index := kbIndexName, body := mkEsQueryBody query },
    rfl, rfl, rfl, rfl, rfl, rfl, rfl⟩

/-!  ## Claim C9  -/

def c9BadIndexHit : SearchHit :=
  { index := str ("logs-2024"), source := [], highlight := none }

def c9MissingFieldHit : SearchHit :=
  { index := kbIndexName, source := [(str ("title"), str ("t"))],
    highlight := none }

/-- C9: prompt assembly is partial.  A non-highlighted hit from an index
outside the allow-list makes the assembler iterate `None` (`TypeError`); a
non-highlighted hit from the allow-listed index whose source omits an
allow-listed field hits a missing key (`KeyError`).  The error branch is
unreachable when every non-highlighted hit comes from the allow-listed index
with every listed field present in its source. -/
theorem C9_partiality :
    hitContext c9BadIndexHit = Except.error PromptErr.typeErr ∧
    hitContext c9MissingFieldHit
        = Except.error (PromptErr.keyErr (str ("conversation.title"))) ∧
    ∀ results : List SearchHit,
      (∀ hit ∈ results, hit.highlight = none →
        hit.index = kbIndexName ∧
        ∀ f ∈ kbSourceFields, (lookupStr f hit.source).isSome = true) →
      exceptIsOk (buildContext results) = true := by
  refine ⟨by decide, by decide, ?_⟩
  intro results
  induction results with
  | nil => intro _; rfl
  | cons h rest ih =>
    intro hpre
    have hh := hpre h (List.mem_cons_self h rest)
    have hok : ∃ c, hitContext h = Except.ok c := by
      cases hhl : h.highlight with
      | some hl =>
        exact ⟨strJoin hlSep ((hl.map Prod.snd).flatten),
          by simp only [hitContext, hhl]⟩
      | none =>
        obtain ⟨hidx, hfields⟩ := hh hhl
        refine ⟨specFieldLines h.source kbSourceFields, ?_⟩
        simp only [hitContext, hhl, hidx]
        rw [show lookupStr kbIndexName index_source_fields = some kbSourceFields
          from by decide]
        exact sourceFieldsContext_ok kbSourceFields h.source hfields
    obtain ⟨c, hc⟩ := hok
    have hrest := ih (fun x hx => hpre x (List.mem_cons_of_mem h hx))
    simp only [buildContext, hc]
    cases hbr : buildContext rest with
    | error e =>
      rw [hbr] at hrest
      cases hrest
    | ok t => rfl

def c9GoodHit : SearchHit :=
  { index := kbIndexName,
    source := [(str ("conversation.title"), str ("Shipping times")),
      (str ("doc_id"), str ("kb-2")),
      (str ("semantic_text"), str ("Orders ship within two days")),
      (str ("text"), str ("body")),
      (str ("title"), str ("Shipping"))],
    highlight := none }

/-- C9 witness: the no-error conclusion at a concrete one-hit result list
satisfying the precondition. -/
theorem C9_witness : exceptIsOk (buildContext [c9GoodHit]) = true :=
  C9_partiality.2.2 [c9GoodHit] (by decide)

/-!  ## Claim C10  -/

/-- C10: the seed table is only partially deterministic across process starts.
With the NumPy stream fixed by `np.random.seed(42)` (shared between runs), the
ID, Issue, Status and Priority columns agree between any two runs, and the ID
column is exactly `TICKET-1100` down to `TICKET-1001`; but the `Date Submitted`
column is drawn from the separate, unseeded `random` module, and two draw
streams exist that produce different date columns. -/
theorem C10_seed_partial_determinism :
    (∀ (np py1 py2 : Nat → Nat),
      (seedTickets np py1).map Ticket.id = (seedTickets np py2).map Ticket.id ∧
      (seedTickets np py1).map Ticket.issue
          = (seedTickets np py2).map Ticket.issue ∧
      (seedTickets np py1).map Ticket.status
          = (seedTickets np py2).map Ticket.status ∧
      (seedTickets np py1).map Ticket.priority
          = (seedTickets np py2).map Ticket.priority ∧
      (seedTickets np py1).map Ticket.id = descIds 1100) ∧
    ∃ (np py1 py2 : Nat → Nat),
      (seedTickets np py1).map Ticket.dateSubmitted
        ≠ (seedTickets np py2).map Ticket.dateSubmitted := by
  constructor
  · intro np py1 py2
    refine ⟨?_, ?_, ?_, ?_, seedTickets_ids np py1⟩
    · rw [seedTickets_ids np py1, seedTickets_ids np py2]
    · rw [seedTickets_issue np py1, seedTickets_issue np py2]
    · rw [seedTickets_status np py1, seedTickets_status np py2]
    · rw [seedTickets_priority np py1, seedTickets_priority np py2]
  · exact ⟨fun _ => 0, fun _ => 0, fun _ => 1, by decide⟩
